import Mathlib

/-
Verification of the inventory/ordering model in `main.py` (class `Model`).

The embedding keeps the source's structure: numeric parameters are rationals
(Python floats are modelled exactly over ℚ); parameters that the UI may clear
are `Option ℚ`, with `none` standing for Python's `None`.  A method that can
hit a `None` operand (Python would raise `TypeError`) or return Python's
implicit `None` is modelled with `Option`: `none` means the call does not
produce a number.
-/

/-- Value of the ramp branch of `Model._I`: `a * (T1 - t) + b / 2 * (T1 ** 2 - t ** 2)`. -/
def I_ramp (a b T1 t : ℚ) : ℚ :=
  a * (T1 - t) + b / 2 * (T1 ^ 2 - t ^ 2)

/-- The recursive call `self._I(tn, T1, T)` made by the post-saturation branch of
`Model._I`, unfolded once: at `t = tn` the first guard is `0 <= tn <= tn`, the
second guard `tn < tn` is false, so the call returns the ramp value when
`0 ≤ tn` and Python's `None` otherwise.  `I_fn_self_at_tn` below proves this
unfolding agrees with `I_fn` evaluated at `tn`. -/
def I_at_tn (a b tn T1 : ℚ) : Option ℚ :=
  if 0 ≤ tn ∧ tn ≤ tn then some (I_ramp a b T1 tn) else none

/-- `Model._I(t, T1, T)`: ramp branch for `0 <= t <= tn`, post-saturation branch
`self._I(tn, T1, T) - (a + b*tn) * (t - tn)` for `tn < t <= T`, and Python's
implicit `None` otherwise.  When the inner call yields `None`, the subtraction
in the post-saturation branch would raise `TypeError`; both no-number outcomes
are `none`. -/
def I_fn (a b tn T1 T t : ℚ) : Option ℚ :=
  if 0 ≤ t ∧ t ≤ tn then some (I_ramp a b T1 t)
  else if tn < t ∧ t ≤ T then
    (I_at_tn a b tn T1).map (fun v => v - (a + b * tn) * (t - tn))
  else none

/-- `Model._q0(T1, T)` = `a * T1 + b / 2 * T1 ** 2` (the `T` argument is unused in the source). -/
def q0_fn (a b T1 : ℚ) : ℚ :=
  a * T1 + b / 2 * T1 ^ 2

/-- `Model._B(T1, T)` = `-self._I(T, T1, T)`; no number when `_I` returns `None`. -/
def B_fn (a b tn T1 T : ℚ) : Option ℚ :=
  (I_fn a b tn T1 T T).map (fun v => -v)

/-- `Model._Q(T1, T)` = `self._q0(T1, T) + self._B(T1, T)`. -/
def Q_fn (a b tn T1 T : ℚ) : Option ℚ :=
  (B_fn a b tn T1 T).map (fun Bv => q0_fn a b T1 + Bv)

/-- `Model._D(t)`: `a + b*t` for `t < tn`, else `a + b*tn`.  Total: the source
has no domain check. -/
def D_fn (a b tn t : ℚ) : ℚ :=
  if t < tn then a + b * t else a + b * tn

/-- `Model._V(T1, T)` with a numeric discount `s`:
`It1tn = -(T1 - tn)**2 / 6 * (3*a + b*(tn + 2*T1))`,
`ItnT = self._I(tn, T1, T) * (T - tn) - (a + b*tn) * (T - tn)**2 / 2`,
result `-s * (It1tn + ItnT)`; no number when `self._I(tn, T1, T)` is `None`. -/
def V_core (s a b tn T1 T : ℚ) : Option ℚ :=
  (I_fn a b tn T1 T tn).map (fun Itn =>
    -s * (-(T1 - tn) ^ 2 / 6 * (3 * a + b * (tn + 2 * T1)) +
      (Itn * (T - tn) - (a + b * tn) * (T - tn) ^ 2 / 2)))

/-- `Model._V` as invoked with the stored `self.s`, which the UI may have
cleared to `None`; `-None * _` raises `TypeError`, i.e. no number. -/
def V_fn (s : Option ℚ) (a b tn T1 T : ℚ) : Option ℚ :=
  match s with
  | some sv => V_core sv a b tn T1 T
  | none => none

/-- `Model._TP(T1, T)` = `(self.p - self.c) * self._Q(T1, T) - self._V(T1, T)`;
no number when `p` or `c` is `None` or when `_Q`/`_V` produce no number. -/
def TP_fn (p c s : Option ℚ) (a b tn T1 T : ℚ) : Option ℚ :=
  match p, c, Q_fn a b tn T1 T, V_fn s a b tn T1 T with
  | some pv, some cv, some Qv, some Vv => some ((pv - cv) * Qv - Vv)
  | _, _, _, _ => none

/-- State of a `Model` instance: the eight parameters (UI-bound, hence possibly
`None`) and the five stored derived quantities, which always hold numbers
(they are computed numerically in `__init__` and only overwritten by numbers). -/
structure Model where
  T : Option ℚ
  T1 : Option ℚ
  tn : Option ℚ
  a : Option ℚ
  b : Option ℚ
  p : Option ℚ
  c : Option ℚ
  s : Option ℚ
  q0 : ℚ
  B : ℚ
  Q : ℚ
  V : ℚ
  TP : ℚ
deriving DecidableEq, Repr

/-- `Model.check_all_set`: `self.T is not None and self.T1 is not None and
self.tn is not None and self.a is not None and self.b is not None`. -/
def check_all_set (m : Model) : Bool :=
  m.T.isSome && m.T1.isSome && m.tn.isSome && m.a.isSome && m.b.isSome

/-- `Model.update`: early return when `check_all_set` is false; otherwise assign
`q0`, `B`, `Q`, `V`, `TP` in source order.  A step whose computation produces
no number raises `TypeError` in Python, abandoning the remaining assignments;
the returned flag is `true` iff the call ran to completion without raising.
The guard guarantees `T`, `T1`, `tn`, `a`, `b` are numbers, so `getD 0`
defaults are never exercised under it. -/
def updateModel (m : Model) : Model × Bool :=
  if check_all_set m = true then
    let a := m.a.getD 0
    let b := m.b.getD 0
    let tn := m.tn.getD 0
    let T1 := m.T1.getD 0
    let T := m.T.getD 0
    let m1 := { m with q0 := q0_fn a b T1 }
    match B_fn a b tn T1 T with
    | none => (m1, false)
    | some Bv =>
      let m2 := { m1 with B := Bv }
      let m3 := { m2 with Q := q0_fn a b T1 + Bv }
      match V_fn m.s a b tn T1 T with
      | none => (m3, false)
      | some Vv =>
        let m4 := { m3 with V := Vv }
        match TP_fn m.p m.c m.s a b tn T1 T with
        | none => (m4, false)
        | some TPv => ({ m4 with TP := TPv }, true)
  else (m, true)

/-- The optimization problem `Model.optimize` hands to `scipy.optimize.minimize`:
objective, the two variable bounds, and the start point `np.array([0, 1])`. -/
structure OptProblem where
  objective : ℚ → ℚ → Option ℚ
  lower1 : ℚ
  upper1 : ℚ
  lower2 : ℚ
  upper2 : ℚ
  start1 : ℚ
  start2 : ℚ

/-- `Model.optimize`: unconditionally builds
`minimize(lambda x: -self._TP(x[0], x[1]), np.array([0, 1]),
bounds=[(0, self.tn), (self.tn, self.T)], method='L-BFGS-B')`.
The source performs no validation of its own before delegating to scipy. -/
def optimizeProblem (p c s : Option ℚ) (a b tn T : ℚ) : OptProblem :=
  { objective := fun T1v Tv => (TP_fn p c s a b tn T1v Tv).map (fun y => -y)
    lower1 := 0
    upper1 := tn
    lower2 := tn
    upper2 := T
    start1 := 0
    start2 := 1 }

/- ------------------------------------------------------------------ -/
/- Helper lemmas shared by several claims.                              -/
/- ------------------------------------------------------------------ -/

/-- The inlined recursive call agrees with `I_fn` at `t = tn`: unfolding the
recursion of `Model._I` once is faithful. -/
lemma I_fn_self_at_tn (a b tn T1 T : ℚ) :
    I_fn a b tn T1 T tn = I_at_tn a b tn T1 := by
  unfold I_fn
  by_cases h : 0 ≤ tn ∧ tn ≤ tn
  · rw [if_pos h]
    unfold I_at_tn
    rw [if_pos h]
  · rw [if_neg h, if_neg]
    · unfold I_at_tn
      rw [if_neg h]
    · rintro ⟨h1, -⟩
      exact lt_irrefl tn h1

/-- When `0 ≤ tn`, `Model._I` at `t = tn` takes the ramp branch. -/
lemma I_fn_at_tn (a b tn T1 T : ℚ) (h : 0 ≤ tn) :
    I_fn a b tn T1 T tn = some (I_ramp a b T1 tn) := by
  unfold I_fn
  rw [if_pos ⟨h, le_refl tn⟩]

/-- When `0 ≤ t ≤ tn`, `Model._I` returns the ramp value. -/
lemma I_fn_ramp (a b tn T1 T t : ℚ) (h0 : 0 ≤ t) (h1 : t ≤ tn) :
    I_fn a b tn T1 T t = some (I_ramp a b T1 t) := by
  unfold I_fn
  rw [if_pos ⟨h0, h1⟩]

/-- When `0 ≤ tn < t ≤ T`, `Model._I` returns the post-saturation value with
the ramp value at `tn` as base. -/
lemma I_fn_post (a b tn T1 T t : ℚ) (h0 : 0 ≤ tn) (h1 : tn < t) (h2 : t ≤ T) :
    I_fn a b tn T1 T t = some (I_ramp a b T1 tn - (a + b * tn) * (t - tn)) := by
  unfold I_fn
  rw [if_neg, if_pos ⟨h1, h2⟩]
  · unfold I_at_tn
    rw [if_pos ⟨h0, le_refl tn⟩]
    rfl
  · rintro ⟨-, h4⟩
    exact absurd (lt_of_lt_of_le h1 h4) (lt_irrefl tn)

/-- With `0 ≤ tn` and `0 ≤ T`, `Model._I` at `t = T` always returns a number. -/
lemma I_fn_at_T_isSome (a b tn T1 T : ℚ) (htn : 0 ≤ tn) (hT : 0 ≤ T) :
    ∃ v, I_fn a b tn T1 T T = some v := by
  rcases le_or_lt T tn with h | h
  · exact ⟨_, I_fn_ramp a b tn T1 T T hT h⟩
  · exact ⟨_, I_fn_post a b tn T1 T T htn h (le_refl T)⟩

/-- With `0 ≤ tn` and `0 ≤ T`, `_B`, `_Q`, `_V`, `_TP` (with numeric `p`, `c`,
`s`) all return numbers: the model has no invalid-configuration error path for
such parameters. -/
lemma derived_isSome (a b tn T1 T p c s : ℚ) (htn : 0 ≤ tn) (hT : 0 ≤ T) :
    (B_fn a b tn T1 T).isSome = true ∧ (Q_fn a b tn T1 T).isSome = true ∧
    (V_core s a b tn T1 T).isSome = true ∧
    (TP_fn (some p) (some c) (some s) a b tn T1 T).isSome = true := by
  obtain ⟨v, hv⟩ := I_fn_at_T_isSome a b tn T1 T htn hT
  have hB : B_fn a b tn T1 T = some (-v) := by rw [B_fn, hv]; rfl
  have hQ : Q_fn a b tn T1 T = some (q0_fn a b T1 + -v) := by rw [Q_fn, hB]; rfl
  have hV : ∃ w, V_core s a b tn T1 T = some w := by
    rw [V_core, I_fn_at_tn a b tn T1 T htn]
    exact ⟨_, rfl⟩
  obtain ⟨w, hw⟩ := hV
  refine ⟨by rw [hB]; rfl, by rw [hQ]; rfl, by rw [hw]; rfl, ?_⟩
  have hVf : V_fn (some s) a b tn T1 T = some w := hw
  simp only [TP_fn, hQ, hVf, Option.isSome_some]

/- Sanity checks against the defaults of `Model.__init__`
   (T=15, T1=3, tn=6, a=1, b=4, p=15000, c=10000, s=300). -/
example : q0_fn 1 4 3 = 21 := by norm_num [q0_fn]
example : B_fn 1 4 6 3 15 = some 282 := by norm_num [B_fn, I_fn, I_at_tn, I_ramp]
example : I_fn 1 4 6 3 15 6 = some (-57) := by norm_num [I_fn, I_at_tn, I_ramp]
example : D_fn 1 4 6 10 = 25 := by norm_num [D_fn]

/- ------------------------------------------------------------------ -/
/- C2: continuity of `_I` at `t = tn`.                                  -/
/- ------------------------------------------------------------------ -/

/-- C2: for every parameter set with `0 ≤ T1 ≤ tn ≤ T`, `_I` is continuous at
`t = tn`: at `tn` the ramp branch yields `a*(T1 - tn) + b/2*(T1^2 - tn^2)`
(that is, `I_ramp a b T1 tn`), and every post-saturation evaluation
(`tn < t ≤ T`) uses exactly that same value as its base, so the two branches
of `_I` agree at `t = tn`. -/
theorem c2_I_continuous_at_tn (a b tn T1 T : ℚ)
    (h0 : 0 ≤ T1) (h1 : T1 ≤ tn) (_h2 : tn ≤ T) :
    I_fn a b tn T1 T tn = some (I_ramp a b T1 tn) ∧
    ∀ t, tn < t → t ≤ T →
      I_fn a b tn T1 T t = some (I_ramp a b T1 tn - (a + b * tn) * (t - tn)) := by
  have htn : 0 ≤ tn := le_trans h0 h1
  exact ⟨I_fn_at_tn a b tn T1 T htn,
    fun t ht1 ht2 => I_fn_post a b tn T1 T t htn ht1 ht2⟩

/-- C2 witness at the model's defaults (`a=1, b=4, tn=6, T1=3, T=15`) and
`t = 10`. -/
theorem c2_I_continuous_at_tn_witness :
    I_fn 1 4 6 3 15 6 = some (I_ramp 1 4 3 6) ∧
    I_fn 1 4 6 3 15 10 = some (I_ramp 1 4 3 6 - (1 + 4 * 6) * (10 - 6)) := by
  have h := c2_I_continuous_at_tn 1 4 6 3 15 (by norm_num) (by norm_num) (by norm_num)
  exact ⟨h.1, h.2 10 (by norm_num) (by norm_num)⟩

/- ------------------------------------------------------------------ -/
/- C3: non-negativity of `B` under feasible parameters.                 -/
/- ------------------------------------------------------------------ -/

/-- C3: for every parameter set with `0 ≤ T1 ≤ tn ≤ T`, `a ≥ 0` and `b ≥ 0`,
the maximum shortage `B = -_I(T)` computed by `_B` is a number and is
non-negative. -/
theorem c3_B_nonneg (a b tn T1 T : ℚ)
    (h0 : 0 ≤ T1) (h1 : T1 ≤ tn) (h2 : tn ≤ T) (ha : 0 ≤ a) (hb : 0 ≤ b) :
    ∃ v, B_fn a b tn T1 T = some v ∧ 0 ≤ v := by
  have htn : 0 ≤ tn := le_trans h0 h1
  have hT : 0 ≤ T := le_trans htn h2
  have hT1T : T1 ≤ T := le_trans h1 h2
  rcases le_or_lt T tn with h | h
  · refine ⟨-(I_ramp a b T1 T), ?_, ?_⟩
    · rw [B_fn, I_fn_ramp a b tn T1 T T hT h]
      rfl
    · unfold I_ramp
      nlinarith [mul_nonneg ha (sub_nonneg.mpr hT1T),
        mul_nonneg (sub_nonneg.mpr hT1T) (by linarith : (0:ℚ) ≤ T + T1)]
  · refine ⟨-(I_ramp a b T1 tn - (a + b * tn) * (T - tn)), ?_, ?_⟩
    · rw [B_fn, I_fn_post a b tn T1 T T htn h (le_refl T)]
      rfl
    · unfold I_ramp
      nlinarith [mul_nonneg ha (sub_nonneg.mpr h1),
        mul_nonneg (sub_nonneg.mpr h1) (by linarith : (0:ℚ) ≤ tn + T1),
        mul_nonneg (by positivity : (0:ℚ) ≤ a + b * tn) (by linarith : (0:ℚ) ≤ T - tn)]

/-- C3 witness at the model's defaults. -/
theorem c3_B_nonneg_witness :
    ∃ v, B_fn 1 4 6 3 15 = some v ∧ 0 ≤ v :=
  c3_B_nonneg 1 4 6 3 15 (by norm_num) (by norm_num) (by norm_num)
    (by norm_num) (by norm_num)

/- ------------------------------------------------------------------ -/
/- C9: closed-form `q0` equals `_I` at `t = 0`.                         -/
/- ------------------------------------------------------------------ -/

/-- C9: for every parameter set with `0 ≤ T1 ≤ tn`, the closed-form
`q0 = a*T1 + b/2*T1^2` computed by `_q0` equals the general inventory
function `_I` evaluated at `t = 0`. -/
theorem c9_q0_eq_I_at_zero (a b tn T1 T : ℚ) (h0 : 0 ≤ T1) (h1 : T1 ≤ tn) :
    I_fn a b tn T1 T 0 = some (q0_fn a b T1) := by
  have htn : 0 ≤ tn := le_trans h0 h1
  rw [I_fn_ramp a b tn T1 T 0 (le_refl 0) htn]
  congr 1
  unfold I_ramp q0_fn
  ring

/-- C9 witness at the model's defaults. -/
theorem c9_q0_eq_I_at_zero_witness :
    I_fn 1 4 6 3 15 0 = some (q0_fn 1 4 3) :=
  c9_q0_eq_I_at_zero 1 4 6 3 15 (by norm_num) (by norm_num)

/- ------------------------------------------------------------------ -/
/- C1: no invalid-configuration error on I1-violating parameters.       -/
/- ------------------------------------------------------------------ -/

/-- C1 counterexample: `T1 = 10, tn = 6, T = 7` violates invariant I1
(`T1 ≤ tn` fails), yet `update` runs to completion and stores numeric values
for all five derived quantities — including the silently negative
`B = -107` — instead of failing with an invalid-configuration error. -/
theorem c1_counterexample :
    ¬ ((0:ℚ) ≤ 10 ∧ (10:ℚ) ≤ 6 ∧ (6:ℚ) ≤ 7) ∧
    updateModel { T := some 7, T1 := some 10, tn := some 6, a := some 1, b := some 4,
                  p := some 15000, c := some 10000, s := some 300,
                  q0 := 0, B := 0, Q := 0, V := 0, TP := 0 } =
    ({ T := some 7, T1 := some 10, tn := some 6, a := some 1, b := some 4,
       p := some 15000, c := some 10000, s := some 300,
       q0 := 210, B := -107, Q := 103, V := 49750, TP := 465250 }, true) ∧
    (-107 : ℚ) < 0 := by
  refine ⟨by norm_num, ?_, by norm_num⟩
  norm_num [updateModel, check_all_set, B_fn, I_fn, I_at_tn, I_ramp, q0_fn,
    Q_fn, V_fn, V_core, TP_fn]

/-- C1 (amended): the model performs no I1 validation at all.  For any
parameters with `0 ≤ tn` and `0 ≤ T` — the ordering of `T1`, `tn`, `T` being
otherwise arbitrary, so I1 may well be violated — every derived quantity
(`B`, `Q`, `V`, `TP`, with numeric `p`, `c`, `s`) evaluates to a number; in
particular an infeasible ordering can produce `B < 0` silently.  (The only
non-numeric outcomes come from `None` propagation, e.g. `T < 0`, not from any
invalid-configuration check.) -/
theorem c1_amended (a b tn T1 T p c s : ℚ) (htn : 0 ≤ tn) (hT : 0 ≤ T) :
    (B_fn a b tn T1 T).isSome = true ∧ (Q_fn a b tn T1 T).isSome = true ∧
    (V_core s a b tn T1 T).isSome = true ∧
    (TP_fn (some p) (some c) (some s) a b tn T1 T).isSome = true :=
  derived_isSome a b tn T1 T p c s htn hT

/-- C1 witness: the amended statement at the I1-violating configuration
`T1 = 10, tn = 6, T = 7`. -/
theorem c1_amended_witness :
    (B_fn 1 4 6 10 7).isSome = true ∧ (Q_fn 1 4 6 10 7).isSome = true ∧
    (V_core 300 1 4 6 10 7).isSome = true ∧
    (TP_fn (some 15000) (some 10000) (some 300) 1 4 6 10 7).isSome = true :=
  c1_amended 1 4 6 10 7 15000 10000 300 (by norm_num) (by norm_num)

/- ------------------------------------------------------------------ -/
/- C4: boundary scenarios.                                              -/
/- ------------------------------------------------------------------ -/

/-- C4 counterexample: the valid parameter set `T1 = 3, tn = 6, T = 6`
(`0 ≤ 3 ≤ 6 ≤ 6`, `a = 1 ≥ 0`, `b = 4 ≥ 0`, `s = 300 ≥ 0`) has `T = tn`,
yet `B = 57 ≠ 0` and `V = 22950 ≠ 0`: shortage starts at `T1`, not at `tn`,
so `T = tn` does not make the shortage vanish. -/
theorem c4_counterexample :
    ((0:ℚ) ≤ 3 ∧ (3:ℚ) ≤ 6 ∧ (6:ℚ) ≤ 6) ∧
    B_fn 1 4 6 3 6 = some 57 ∧ V_core 300 1 4 6 3 6 = some 22950 ∧
    (57:ℚ) ≠ 0 ∧ (22950:ℚ) ≠ 0 := by
  refine ⟨by norm_num, ?_, ?_, by norm_num, by norm_num⟩
  · norm_num [B_fn, I_fn, I_at_tn, I_ramp]
  · norm_num [V_core, I_fn, I_at_tn, I_ramp]

/-- C4 (amended): for valid parameters (`0 ≤ T1 ≤ tn ≤ T`): if `T1 = 0` then
`q0 = 0`; and if `T = tn` and additionally `T1 = tn` (so that the shortage
interval `[T1, T]` is empty) then `B = 0` and `V = 0`. -/
theorem c4_amended (a b s tn T1 T : ℚ)
    (h0 : 0 ≤ T1) (h1 : T1 ≤ tn) (_h2 : tn ≤ T) :
    (T1 = 0 → q0_fn a b T1 = 0) ∧
    (T = tn → T1 = tn → B_fn a b tn T1 T = some 0 ∧ V_core s a b tn T1 T = some 0) := by
  constructor
  · intro h
    subst h
    unfold q0_fn
    ring
  · intro hTtn hT1tn
    have htn : 0 ≤ tn := le_trans h0 h1
    rw [hTtn, hT1tn]
    constructor
    · rw [B_fn, I_fn_ramp a b tn tn tn tn htn (le_refl tn)]
      simp [I_ramp]
    · rw [V_core, I_fn_at_tn a b tn tn tn htn]
      simp [I_ramp]

/-- C4 witness: amended statement at `a = 1, b = 4, s = 300,
T1 = tn = T = 0`, where both boundary premises hold. -/
theorem c4_amended_witness :
    q0_fn 1 4 0 = 0 ∧ B_fn 1 4 0 0 0 = some 0 ∧ V_core 300 1 4 0 0 0 = some 0 := by
  have h := c4_amended 1 4 300 0 0 0 (le_refl 0) (le_refl 0) (le_refl 0)
  exact ⟨h.1 rfl, (h.2 rfl rfl).1, (h.2 rfl rfl).2⟩

/- ------------------------------------------------------------------ -/
/- C5: atomicity of `update`.                                           -/
/- ------------------------------------------------------------------ -/

/-- C5 counterexample: with all parameters set but `T = -1`, the guard
`check_all_set` passes, `q0` is assigned its recomputed value `21`, and then
`_B` hits `-None` (a `TypeError`): the call aborts leaving `B`, `Q`, `V`,
`TP` at their stale values `1, 2, 3, 4` — neither "all five recomputed" nor
"all five left as they were". -/
theorem c5_counterexample :
    updateModel { T := some (-1), T1 := some 3, tn := some 6, a := some 1, b := some 4,
                  p := some 15000, c := some 10000, s := some 300,
                  q0 := 0, B := 1, Q := 2, V := 3, TP := 4 } =
    ({ T := some (-1), T1 := some 3, tn := some 6, a := some 1, b := some 4,
       p := some 15000, c := some 10000, s := some 300,
       q0 := 21, B := 1, Q := 2, V := 3, TP := 4 }, false) ∧
    (21:ℚ) ≠ 0 := by
  refine ⟨?_, by norm_num⟩
  norm_num [updateModel, check_all_set, B_fn, I_fn, I_at_tn, I_ramp, q0_fn,
    Q_fn, V_fn, V_core, TP_fn]

/-- C5 (amended): `update` is atomic exactly in the no-exception cases.  When
`check_all_set` is false it changes nothing (and returns normally); when the
guard passes and every computation yields a number (`0 ≤ tn`, `0 ≤ T`, and
`p`, `c`, `s` all set) it recomputes all five derived quantities.  A
mid-sequence failure (see the counterexample) instead leaves a recomputed
prefix and a stale suffix. -/
theorem c5_amended (m : Model) (a b tn T1 T p c s : ℚ) :
    (check_all_set m = false → updateModel m = (m, true)) ∧
    (m.a = some a → m.b = some b → m.tn = some tn → m.T1 = some T1 → m.T = some T →
     m.p = some p → m.c = some c → m.s = some s → 0 ≤ tn → 0 ≤ T →
     ∃ Bv Vv TPv,
       B_fn a b tn T1 T = some Bv ∧ V_core s a b tn T1 T = some Vv ∧
       TP_fn (some p) (some c) (some s) a b tn T1 T = some TPv ∧
       updateModel m =
         ({ m with q0 := q0_fn a b T1, B := Bv, Q := q0_fn a b T1 + Bv, V := Vv,
                   TP := TPv }, true)) := by
  constructor
  · intro h
    simp [updateModel, h]
  · intro ha hb htn' hT1' hT' hp hc hs h0tn h0T
    have hset : check_all_set m = true := by
      simp [check_all_set, ha, hb, htn', hT1', hT']
    obtain ⟨v, hv⟩ := I_fn_at_T_isSome a b tn T1 T h0tn h0T
    have hB : B_fn a b tn T1 T = some (-v) := by
      rw [B_fn, hv]
      rfl
    obtain ⟨w, hw⟩ : ∃ w, V_core s a b tn T1 T = some w := by
      rw [V_core, I_fn_at_tn a b tn T1 T h0tn]
      exact ⟨_, rfl⟩
    have hQ : Q_fn a b tn T1 T = some (q0_fn a b T1 + -v) := by
      rw [Q_fn, hB]
      rfl
    have hVf : V_fn (some s) a b tn T1 T = some w := hw
    have hTP : TP_fn (some p) (some c) (some s) a b tn T1 T =
        some ((p - c) * (q0_fn a b T1 + -v) - w) := by
      simp only [TP_fn, hQ, hVf]
    refine ⟨-v, w, (p - c) * (q0_fn a b T1 + -v) - w, hB, hw, hTP, ?_⟩
    unfold updateModel
    rw [if_pos hset]
    simp only [ha, hb, htn', hT1', hT', hp, hc, hs, Option.getD_some, hB, hVf, hTP]

/-- C5 witness: amended statement at the model's default state (all
parameters set, `T = 15 ≥ 0`, `tn = 6 ≥ 0`), fully discharged. -/
theorem c5_amended_witness :
    ∃ Bv Vv TPv,
      B_fn 1 4 6 3 15 = some Bv ∧ V_core 300 1 4 6 3 15 = some Vv ∧
      TP_fn (some 15000) (some 10000) (some 300) 1 4 6 3 15 = some TPv ∧
      updateModel { T := some 15, T1 := some 3, tn := some 6, a := some 1, b := some 4,
                    p := some 15000, c := some 10000, s := some 300,
                    q0 := 0, B := 0, Q := 0, V := 0, TP := 0 } =
      ({ T := some 15, T1 := some 3, tn := some 6, a := some 1, b := some 4,
         p := some 15000, c := some 10000, s := some 300,
         q0 := q0_fn 1 4 3, B := Bv, Q := q0_fn 1 4 3 + Bv, V := Vv, TP := TPv }, true) :=
  (c5_amended { T := some 15, T1 := some 3, tn := some 6, a := some 1, b := some 4,
                p := some 15000, c := some 10000, s := some 300,
                q0 := 0, B := 0, Q := 0, V := 0, TP := 0 }
    1 4 6 3 15 15000 10000 300).2 rfl rfl rfl rfl rfl rfl rfl rfl
    (by norm_num) (by norm_num)

/- ------------------------------------------------------------------ -/
/- C6: out-of-domain evaluation of `_I` and `_D`.                       -/
/- ------------------------------------------------------------------ -/

/-- C6 counterexample: at the defaults (`a=1, b=4, tn=6, T=15`), `_D` happily
returns values outside `[0, T]` — `D(-1) = -3` and `D(100) = 25` — instead of
failing with an out-of-domain error; `_D` contains no domain check at all. -/
theorem c6_counterexample :
    ((-1:ℚ) < 0 ∧ D_fn 1 4 6 (-1) = -3) ∧ ((15:ℚ) < 100 ∧ D_fn 1 4 6 100 = 25) := by
  refine ⟨⟨by norm_num, ?_⟩, ⟨by norm_num, ?_⟩⟩ <;> norm_num [D_fn]

/-- C6 (amended): `_D` performs no domain check — it returns `a + b*t` for
`t < tn` and `a + b*tn` for `t ≥ tn`, for every `t` including `t < 0` and
`t > T`; and (under `0 ≤ tn ≤ T`) `_I` outside `[0, T]` returns no number at
all (Python's implicit `None`) rather than raising an out-of-domain error. -/
theorem c6_amended (a b tn T1 T t : ℚ) :
    (t < tn → D_fn a b tn t = a + b * t) ∧
    (tn ≤ t → D_fn a b tn t = a + b * tn) ∧
    (0 ≤ tn → tn ≤ T → t < 0 ∨ T < t → I_fn a b tn T1 T t = none) := by
  refine ⟨fun h => by rw [D_fn, if_pos h], fun h => by rw [D_fn, if_neg (not_lt.mpr h)], ?_⟩
  intro htn htnT ht
  unfold I_fn
  rcases ht with h | h
  · rw [if_neg (show ¬ (0 ≤ t ∧ t ≤ tn) by rintro ⟨h1, -⟩; linarith),
      if_neg (show ¬ (tn < t ∧ t ≤ T) by rintro ⟨h1, -⟩; linarith)]
  · rw [if_neg (show ¬ (0 ≤ t ∧ t ≤ tn) by rintro ⟨-, h2⟩; linarith),
      if_neg (show ¬ (tn < t ∧ t ≤ T) by rintro ⟨-, h2⟩; linarith)]

/-- C6 witness: amended statement at the defaults for `t = -1` (below the
domain) and `t = 16` (above `T = 15`). -/
theorem c6_amended_witness :
    D_fn 1 4 6 (-1) = 1 + 4 * (-1) ∧
    I_fn 1 4 6 3 15 (-1) = none ∧ I_fn 1 4 6 3 15 16 = none := by
  have h1 := c6_amended 1 4 6 3 15 (-1)
  have h2 := c6_amended 1 4 6 3 15 16
  exact ⟨h1.1 (by norm_num),
    h1.2.2 (by norm_num) (by norm_num) (Or.inl (by norm_num)),
    h2.2.2 (by norm_num) (by norm_num) (Or.inr (by norm_num))⟩

/- ------------------------------------------------------------------ -/
/- C7: no invalid-bounds error for a degenerate optimization box.       -/
/- ------------------------------------------------------------------ -/

/-- C7 counterexample: with `tn = 0` (so `tn ≤ 0`, a degenerate box) and
`T = 5`, `optimize` does not fail: it builds the search problem with bounds
`[(0, 0), (0, 5)]` and start `[0, 1]` and hands it to the solver — there is
no invalid-bounds error path anywhere in `Model.optimize`. -/
theorem c7_counterexample :
    ((0:ℚ) ≤ 0) ∧
    optimizeProblem (some 15000) (some 10000) (some 300) 1 4 0 5 =
      { objective := fun T1v Tv =>
          (TP_fn (some 15000) (some 10000) (some 300) 1 4 0 T1v Tv).map (fun y => -y)
        lower1 := 0
        upper1 := 0
        lower2 := 0
        upper2 := 5
        start1 := 0
        start2 := 1 } :=
  ⟨le_refl 0, rfl⟩

/-- C7 (amended): `optimize` performs no bounds validation of its own: even
when the box degenerates (`tn ≤ 0` or `T ≤ tn`), it unconditionally
constructs the L-BFGS-B problem with objective `-_TP`, bounds
`[(0, tn), (tn, T)]` and start point `[0, 1]`, delegating entirely to the
external solver (scipy itself rejects only strictly inverted bounds). -/
theorem c7_amended (p c s : Option ℚ) (a b tn T : ℚ) (_hdeg : tn ≤ 0 ∨ T ≤ tn) :
    optimizeProblem p c s a b tn T =
      { objective := fun T1v Tv => (TP_fn p c s a b tn T1v Tv).map (fun y => -y)
        lower1 := 0
        upper1 := tn
        lower2 := tn
        upper2 := T
        start1 := 0
        start2 := 1 } :=
  rfl

/-- C7 witness: amended statement at the degenerate box `tn = 0, T = 5`. -/
theorem c7_amended_witness :
    optimizeProblem (some 15000) (some 10000) (some 300) 1 4 0 5 =
      { objective := fun T1v Tv =>
          (TP_fn (some 15000) (some 10000) (some 300) 1 4 0 T1v Tv).map (fun y => -y)
        lower1 := 0
        upper1 := 0
        lower2 := 0
        upper2 := 5
        start1 := 0
        start2 := 1 } :=
  c7_amended (some 15000) (some 10000) (some 300) 1 4 0 5 (Or.inl (le_refl 0))

/- ------------------------------------------------------------------ -/
/- C8: the optimization box and the start point.                        -/
/- ------------------------------------------------------------------ -/

/-- C8 counterexample: at the model's defaults (`tn = 6, T = 15`), the start
point is the fixed `[0, 1]`, whose second coordinate `1` is below the lower
bound `tn = 6` of the `T` variable: the search does not start from a feasible
interior point of the box `[0, tn] × [tn, T]` (it is not even inside the
box). -/
theorem c8_counterexample :
    (optimizeProblem (some 15000) (some 10000) (some 300) 1 4 6 15).start1 = 0 ∧
    (optimizeProblem (some 15000) (some 10000) (some 300) 1 4 6 15).start2 = 1 ∧
    ¬ ((optimizeProblem (some 15000) (some 10000) (some 300) 1 4 6 15).lower2 ≤
        (optimizeProblem (some 15000) (some 10000) (some 300) 1 4 6 15).start2) := by
  refine ⟨rfl, rfl, ?_⟩
  show ¬ ((6:ℚ) ≤ 1)
  norm_num

/-- C8 (amended): `optimize` minimizes the negative of `_TP` (through the
exact `_TP` evaluation path) over exactly the box `[0, tn] × [tn, T]` with
`T` the model's current value, but the search starts from the fixed point
`[0, 1]`, which sits on the `T1` boundary and lies strictly below the box in
the `T` coordinate whenever `1 < tn`. -/
theorem c8_amended (p c s : Option ℚ) (a b tn T : ℚ) :
    (optimizeProblem p c s a b tn T).objective =
      (fun T1v Tv => (TP_fn p c s a b tn T1v Tv).map (fun y => -y)) ∧
    (optimizeProblem p c s a b tn T).lower1 = 0 ∧
    (optimizeProblem p c s a b tn T).upper1 = tn ∧
    (optimizeProblem p c s a b tn T).lower2 = tn ∧
    (optimizeProblem p c s a b tn T).upper2 = T ∧
    (optimizeProblem p c s a b tn T).start1 = 0 ∧
    (optimizeProblem p c s a b tn T).start2 = 1 ∧
    (1 < tn → ¬ ((optimizeProblem p c s a b tn T).lower2 ≤
        (optimizeProblem p c s a b tn T).start2)) := by
  refine ⟨rfl, rfl, rfl, rfl, rfl, rfl, rfl, fun h => ?_⟩
  show ¬ (tn ≤ (1:ℚ))
  exact not_le.mpr h

/-- C8 witness: amended statement at the defaults (`tn = 6 > 1`). -/
theorem c8_amended_witness :
    (optimizeProblem (some 15000) (some 10000) (some 300) 1 4 6 15).upper1 = 6 ∧
    (optimizeProblem (some 15000) (some 10000) (some 300) 1 4 6 15).start2 = 1 ∧
    ¬ ((optimizeProblem (some 15000) (some 10000) (some 300) 1 4 6 15).lower2 ≤
        (optimizeProblem (some 15000) (some 10000) (some 300) 1 4 6 15).start2) := by
  have h := c8_amended (some 15000) (some 10000) (some 300) 1 4 6 15
  exact ⟨h.2.2.1, h.2.2.2.2.2.2.1, h.2.2.2.2.2.2.2 (by norm_num)⟩

/- ------------------------------------------------------------------ -/
/- C10: `check_all_set` semantics.                                      -/
/- ------------------------------------------------------------------ -/

/-- C10: `check_all_set` returns `true` iff each of `T`, `T1`, `tn`, `a`,
`b` is not `None` (a value of zero is `some 0` and counts as set); it never
examines `p`, `c` or `s` (changing them cannot change its result); and when
it returns `true`, `update` proceeds past the guard and recomputes — `q0` is
assigned its recomputed value regardless of `p`, `c`, `s`, even when all
three are `None`. -/
theorem c10_check_all_set (m : Model) (pv cv sv : Option ℚ) :
    (check_all_set m = true ↔
      (m.T ≠ none ∧ m.T1 ≠ none ∧ m.tn ≠ none ∧ m.a ≠ none ∧ m.b ≠ none)) ∧
    check_all_set { m with p := pv, c := cv, s := sv } = check_all_set m ∧
    (check_all_set m = true →
      (updateModel m).1.q0 = q0_fn (m.a.getD 0) (m.b.getD 0) (m.T1.getD 0)) := by
  refine ⟨?_, rfl, ?_⟩
  · simp [check_all_set, Option.isSome_iff_ne_none, and_assoc]
  · intro h
    unfold updateModel
    rw [if_pos h]
    dsimp only
    repeat' split
    all_goals rfl

/-- C10 witness: a state with `T = 15, T1 = 3, tn = 6, a = 1, b = 4` set and
`p = c = s = None`: the guard passes and `update` still recomputes `q0`. -/
theorem c10_check_all_set_witness :
    check_all_set { T := some 15, T1 := some 3, tn := some 6, a := some 1, b := some 4,
                    p := none, c := none, s := none,
                    q0 := 0, B := 0, Q := 0, V := 0, TP := 0 } = true ∧
    (updateModel { T := some 15, T1 := some 3, tn := some 6, a := some 1, b := some 4,
                   p := none, c := none, s := none,
                   q0 := 0, B := 0, Q := 0, V := 0, TP := 0 }).1.q0 = q0_fn 1 4 3 := by
  have h := c10_check_all_set
    { T := some 15, T1 := some 3, tn := some 6, a := some 1, b := some 4,
      p := none, c := none, s := none,
      q0 := 0, B := 0, Q := 0, V := 0, TP := 0 } none none none
  have hset : check_all_set
      { T := some 15, T1 := some 3, tn := some 6, a := some 1, b := some 4,
        p := none, c := none, s := none,
        q0 := 0, B := 0, Q := 0, V := 0, TP := 0 } = true := by
    exact h.1.mpr (by simp)
  exact ⟨hset, h.2.2 hset⟩
